import Mathlib

/-!
Verification of the statistical-test visualizer collection (chi-square
goodness-of-fit / independence, one-sample, paired and two-sample t-tests).

Each Python program is a single-threaded pygame event loop around a small
statistic computation.  The definitions below are shallow embeddings of the
statistic-engine functions and of the event-handler steps the claims talk
about, translated directly from the sources:

* `Chi_2_Goodness_Fit.py`  — `calculate_goodness_of_fit`,
  `calculate_independence`, the KEYDOWN cell-editing handler, the
  MOUSEMOTION slider handler and the VIDEORESIZE handler;
* `Week1_Simple_Effect/t_test.py` — its MOUSEMOTION and VIDEORESIZE
  handlers;
* `Week1_Simple_Effect/one_sample_ttest.py` — `perform_ttest`,
  `calculate_layout` and its VIDEORESIZE handler;
* `Week1_Simple_Effect/paired_ttest.py` — `perform_paired_ttest`.

Numeric slider/cell values are embedded as `ℚ` (the Python floats are IEEE
approximations of these exact values); sample statistics that involve square
roots live in `ℝ`.  Calls into the external statistics library
(`scipy.stats`) are embedded as explicit function parameters (`sf`, `lib`,
`ttest_1samp`, `tppf`, ...), so a theorem quantifying over them holds for any
implementation of the library, and hypotheses state the mathematical facts
about the true library functions that a claim needs (for instance that the
chi-square survival function at degrees of freedom 2 is `exp (-x/2)`).
-/

/-- Python `int()` applied to a rational: truncation toward zero.
Embeds the `int(slider["value"])` conversions in the sources. -/
def truncToInt (q : ℚ) : ℤ :=
  if 0 ≤ q then ⌊q⌋ else ⌈q⌉

/-- A slider dictionary as created in `Chi_2_Goodness_Fit.py` and
`t_test.py`: `{"pos": (x, y), "width": w, "value": v, "min": lo,
"max": hi, "dragging": b}`. -/
structure Slider where
  posx : ℚ
  posy : ℚ
  width : ℚ
  value : ℚ
  lo : ℚ
  hi : ℚ
  dragging : Bool
  deriving DecidableEq, Repr

/-- The raw new value a drag computes before clamping:
`(mouse_pos[0] - slider["pos"][0]) / slider["width"] * (slider["max"] -
slider["min"]) + slider["min"]` (identical formula in the MOUSEMOTION and
MOUSEBUTTONDOWN handlers of `Chi_2_Goodness_Fit.py`, `t_test.py` and
`chi_square.py`). -/
def slider_new_val (s : Slider) (mx : ℚ) : ℚ :=
  (mx - s.posx) / s.width * (s.hi - s.lo) + s.lo

/-- The clamped value a drag stores:
`max(slider["min"], min(slider["max"], new_val))`. -/
def slider_set_value (s : Slider) (mx : ℚ) : ℚ :=
  max s.lo (min s.hi (slider_new_val s mx))

/-- One slider's MOUSEMOTION step: if it is being dragged, its value is
recomputed from the mouse x-coordinate and clamped; otherwise it is left
unchanged. -/
def slider_motion (mx : ℚ) (s : Slider) : Slider :=
  if s.dragging then { s with value := slider_set_value s mx } else s

/-- MOUSEMOTION handler of `Chi_2_Goodness_Fit.py` (lines 1252-1266): every
dragging slider gets the clamped recomputed value and sets `all_changed`;
if `all_changed` the `has_calculated` flag is cleared.  Returns the updated
slider list and the updated flag. -/
def gof_mousemotion (sliders : List Slider) (has_calculated : Bool)
    (mx : ℚ) : List Slider × Bool :=
  let updated := sliders.map (slider_motion mx)
  let all_changed := sliders.any (fun s => s.dragging)
  (updated, if all_changed then false else has_calculated)

/-- MOUSEMOTION handler of `t_test.py` (lines 1088-1095): every dragging
slider gets the clamped recomputed value; `has_calculated` is not touched
anywhere in this branch.  Returns the updated sliders and the (unchanged)
flag. -/
def ttest_mousemotion (sliders : List Slider) (has_calculated : Bool)
    (mx : ℚ) : List Slider × Bool :=
  (sliders.map (slider_motion mx), has_calculated)

/-- VIDEORESIZE handler of `t_test.py` (lines 996-1011): the window is
re-sized (dynamic minimum dimensions), `calculate_layout()` rebuilds each
slider dictionary keeping its `value` and `dragging` fields and assigning
fresh positions and widths, and then the handler sets
`slider["dragging"] = False` on every slider.  The layout arithmetic only
produces the new position/width, so it is embedded as the parameter
`newgeom`; the handler's effect on the drag flags is independent of it. -/
def ttest_videoresize (newgeom : ℕ → ℚ × ℚ × ℚ) (sliders : List Slider) :
    List Slider :=
  (List.range sliders.length).zip sliders |>.map fun si =>
    let g := newgeom si.1
    { si.2 with posx := g.1, posy := g.2.1, width := g.2.2, dragging := false }

/-- Statistic of `scipy.stats.chisquare(observed, expected)`:
`sum((observed - expected)^2 / expected)`. -/
def chisquare_stat (observed expected : List ℚ) : ℚ :=
  ((observed.zip expected).map (fun oe => (oe.1 - oe.2) ^ 2 / oe.2)).sum

/-- Result record of `calculate_goodness_of_fit` in `Chi_2_Goodness_Fit.py`
(global variables `chi2_stat`, `p_value`, `df`, `has_calculated` after the
call).  `called_library` records whether the `stats.chisquare` call was
reached, and `divisors` records, in evaluation order, every quantity the
computation divides by (the `100` of each `slider["value"] / 100`, the
`sum_props` or the fallback length, and each entry of `expected` inside the
library statistic), so "no division by zero" is `0 ∉ divisors`. -/
structure GofResult where
  chi2_stat : ℚ
  p_value : ℝ
  df : ℤ
  has_calculated : Bool
  called_library : Bool
  divisors : List ℚ

/-- Embedding of `calculate_goodness_of_fit` (`Chi_2_Goodness_Fit.py` lines
162-203).  `sf df stat` stands for the p-value the library computes, i.e.
the chi-square survival function at the statistic. -/
def calculate_goodness_of_fit (sf : ℤ → ℚ → ℝ)
    (observed_sliders expected_sliders : List ℚ) : GofResult :=
  let observed : List ℤ := observed_sliders.map truncToInt
  let total_observed : ℤ := observed.sum
  if total_observed = 0 then
    { chi2_stat := 0
      p_value := 1
      df := (observed.length : ℤ) - 1
      has_calculated := true
      called_library := false
      divisors := [] }
  else
    let expected_props : List ℚ := expected_sliders.map (fun v => v / 100)
    let sum_props : ℚ := expected_props.sum
    let props : List ℚ :=
      if 0 < sum_props then expected_props.map (fun p => p / sum_props)
      else List.replicate expected_props.length (1 / (expected_props.length : ℚ))
    let expected : List ℚ := props.map (fun p => p * (total_observed : ℚ))
    let obsQ : List ℚ := observed.map (fun n => (n : ℚ))
    { chi2_stat := chisquare_stat obsQ expected
      p_value := sf ((observed.length : ℤ) - 1) (chisquare_stat obsQ expected)
      df := (observed.length : ℤ) - 1
      has_calculated := true
      called_library := true
      divisors := List.replicate expected_sliders.length 100
        ++ (if 0 < sum_props then [sum_props] else [(expected_props.length : ℚ)])
        ++ expected }

/-- Survival function of the chi-square distribution with two degrees of
freedom.  The chi-square distribution with df = 2 is the exponential
distribution with rate 1/2, so its survival function is exactly
`exp (-x/2)`; this is the p-value `scipy.stats.chisquare` returns for a
three-category test with statistic `x`. -/
noncomputable def chisqSurvivalTwo (df : ℤ) (x : ℚ) : ℝ :=
  if df = 2 then Real.exp (-((x : ℝ) / 2)) else 0

/-- Result record of `calculate_independence` in `Chi_2_Goodness_Fit.py`
(globals `chi2_stat`, `p_value`, `df`, `has_calculated` after the call).
`called_library` records whether `stats.chi2_contingency` was invoked. -/
structure IndResult where
  chi2_stat : ℚ
  p_value : ℝ
  df : ℤ
  has_calculated : Bool
  called_library : Bool

/-- Number of columns of the contingency table, `observed.shape[1]` for the
(rectangular) numpy array built from the cell rows. -/
def numCols (cells : List (List ℕ)) : ℕ :=
  (cells.headD []).length

/-- Embedding of `calculate_independence` (`Chi_2_Goodness_Fit.py` lines
205-234).  Cell values are non-negative integers.  `lib` stands for
`scipy.stats.chi2_contingency`, returning (statistic, p-value, df); it is
only consulted when no row or column sum is zero. -/
def calculate_independence (lib : List (List ℕ) → ℚ × ℝ × ℤ)
    (cells : List (List ℕ)) : IndResult :=
  let row_sums := cells.map List.sum
  let col_sums := cells.transpose.map List.sum
  if row_sums.any (fun s => s == 0) || col_sums.any (fun s => s == 0) then
    { chi2_stat := 0
      p_value := 1
      df := ((cells.length : ℤ) - 1) * ((numCols cells : ℤ) - 1)
      has_calculated := true
      called_library := false }
  else
    let r := lib cells
    { chi2_stat := r.1
      p_value := r.2.1
      df := r.2.2
      has_calculated := true
      called_library := true }

/-- Digit-key branch of the KEYDOWN handler of `Chi_2_Goodness_Fit.py`
(lines 1139-1152): on the active cell, a digit replaces a zero value,
otherwise it is appended in base 10 as long as the current value has fewer
than three digits (`current_val < 100`); values of 100 or more are left
unchanged. -/
def cell_digit (v d : ℕ) : ℕ :=
  if v = 0 then d
  else if v < 100 then v * 10 + d
  else v

/-- Backspace branch of the KEYDOWN handler of `Chi_2_Goodness_Fit.py`
(lines 1130-1137): the decimal string of the value loses its last
character when it has more than one digit (which is division by 10 on the
underlying number), and a single-digit value becomes 0 (which is also
division by 10). -/
def cell_backspace (v : ℕ) : ℕ :=
  if 10 ≤ v then v / 10 else 0

/-- One keyboard edit of the active contingency cell. -/
inductive CellEdit where
  | digit (d : ℕ)
  | backspace
  deriving DecidableEq, Repr

/-- Effect of one keyboard edit on the active cell's value. -/
def applyCellEdit (v : ℕ) : CellEdit → ℕ
  | .digit d => cell_digit v d
  | .backspace => cell_backspace v

/-- Effect of a sequence of keyboard edits applied in order. -/
def applyCellEdits (v : ℕ) : List CellEdit → ℕ
  | [] => v
  | e :: es => applyCellEdits (applyCellEdit v e) es

/-- A keyboard edit the KEYDOWN handler can actually generate: digits come
from keys `K_0`..`K_9`, so they are at most 9. -/
def CellEdit.wf : CellEdit → Prop
  | .digit d => d ≤ 9
  | .backspace => True

/-- VIDEORESIZE handler of `one_sample_ttest.py` depends on its
`test_value_slider` dictionary
`{"rect": Rect, "pos": x, "dragging": b}`. -/
structure TVSlider where
  rectLeft : ℚ
  rectTop : ℚ
  rectWidth : ℚ
  rectHeight : ℚ
  pos : ℚ
  dragging : Bool
  deriving DecidableEq, Repr

/-- Embedding of `calculate_layout` of `one_sample_ttest.py` (lines 63-150)
restricted to its effect on `test_value_slider` (lines 110-119): the rect
is recomputed from the window size and the slider is rebuilt with
`"dragging": test_value_slider["dragging"]` — the drag flag of the old
slider is carried over unchanged. -/
def calculate_layout (W H hypothesized_mean : ℚ) (old : TVSlider) : TVSlider :=
  let sidebar_width := max 350 (W * (3/10))
  let content_width := W - 2 * sidebar_width - 40
  let content_width2 := if content_width < 400 then 400 else content_width
  let sidebar_width2 :=
    if content_width < 400 then (W - content_width2 - 40) / 2 else sidebar_width
  let vis_left := sidebar_width2 + 20
  let vis_width := content_width2
  let controls_top := H - 100
  let slider_left := vis_left + 50
  let slider_width := vis_width - 100
  let slider_top := controls_top + 15
  { rectLeft := slider_left
    rectTop := slider_top
    rectWidth := slider_width
    rectHeight := 10
    pos := slider_left + slider_width * (hypothesized_mean - 0) / 100
    dragging := old.dragging }

/-- VIDEORESIZE handler of `one_sample_ttest.py` (lines 427-435): clamp the
new window size to the minimum 1000 x 700 and recompute the layout.  It
contains no assignment to any drag flag.  Returns the new window size and
the rebuilt `test_value_slider`. -/
def ost_videoresize (w h hypothesized_mean : ℚ) (s : TVSlider) :
    (ℚ × ℚ) × TVSlider :=
  let W := max w 1000
  let H := max h 700
  ((W, H), calculate_layout W H hypothesized_mean s)

/-! Paired and one-sample t-test embeddings -/

/-- numpy `np.mean` on the embedded rational data. -/
def npMean (l : List ℚ) : ℚ :=
  l.sum / l.length

/-- numpy `np.std(l, ddof=1)`: square root of the sum of squared
deviations from the mean divided by (n - 1). -/
noncomputable def npSampleStd (l : List ℚ) : ℝ :=
  Real.sqrt (((l.map (fun x => ((x : ℝ) - (npMean l : ℝ)) ^ 2)).sum) /
    ((l.length : ℝ) - 1))

/-- Result dictionary of `perform_paired_ttest` in `paired_ttest.py`. -/
structure PairedResult where
  t_stat : ℝ
  p_value : ℝ
  mean_before : ℚ
  mean_after : ℚ
  std_before : ℝ
  std_after : ℝ
  mean_diff : ℚ
  std_diff : ℝ
  se_diff : ℝ
  ci_low : ℝ
  ci_high : ℝ
  differences : List ℚ
  significant : Prop

/-- Embedding of `perform_paired_ttest` (`paired_ttest.py` lines 147-182).
`ttest_rel` stands for `scipy.stats.ttest_rel` (statistic, p-value) and
`tppf` for `scipy.stats.t.ppf`; the 95 percent CI is
`t.ppf([0.025, 0.975], df) * se_diff + mean_diff` with df = n - 1. -/
noncomputable def perform_paired_ttest
    (ttest_rel : List ℚ → List ℚ → ℝ × ℝ) (tppf : ℝ → ℤ → ℝ)
    (significance_level : ℝ) (before after : List ℚ) : PairedResult :=
  let differences := List.zipWith (fun b a => b - a) before after
  let tp := ttest_rel before after
  let mean_diff := npMean differences
  let std_diff := npSampleStd differences
  let se_diff := std_diff / Real.sqrt (differences.length : ℝ)
  let df : ℤ := (differences.length : ℤ) - 1
  { t_stat := tp.1
    p_value := tp.2
    mean_before := npMean before
    mean_after := npMean after
    std_before := npSampleStd before
    std_after := npSampleStd after
    mean_diff := mean_diff
    std_diff := std_diff
    se_diff := se_diff
    ci_low := tppf (25/1000) df * se_diff + (mean_diff : ℝ)
    ci_high := tppf (975/1000) df * se_diff + (mean_diff : ℝ)
    differences := differences
    significant := tp.2 < significance_level }

/-- Result dictionary of `perform_ttest` in `one_sample_ttest.py`. -/
structure TTestResult where
  sample_mean : ℝ
  sample_std : ℝ
  standard_error : ℝ
  t_stat : ℝ
  p_two_sided : ℝ
  p_greater : ℝ
  p_less : ℝ
  ci_lower : ℝ
  ci_upper : ℝ
  significant_two_sided : Prop
  significant_greater : Prop
  significant_less : Prop

/-- Embedding of `perform_ttest` (`one_sample_ttest.py` lines 152-184).
`ttest_1samp` stands for `scipy.stats.ttest_1samp` and `tppf` for
`scipy.stats.t.ppf`; the one-sided p-values split the two-sided one by the
sign of the statistic and the 95 percent CI is
`sample_mean ∓ t.ppf(0.975, n-1) * standard_error`. -/
noncomputable def perform_ttest (ttest_1samp : List ℚ → ℚ → ℝ × ℝ)
    (tppf : ℝ → ℤ → ℝ) (significance_level : ℝ)
    (data : List ℚ) (mu : ℚ) : TTestResult :=
  let sample_mean : ℝ := (npMean data : ℝ)
  let sample_std := npSampleStd data
  let sample_size := data.length
  let standard_error := sample_std / Real.sqrt (sample_size : ℝ)
  let tp := ttest_1samp data mu
  let t_stat := tp.1
  let p_two_sided := tp.2
  let p_greater := if 0 < t_stat then p_two_sided / 2 else 1 - p_two_sided / 2
  let p_less := if t_stat < 0 then p_two_sided / 2 else 1 - p_two_sided / 2
  let q := tppf (975/1000) ((sample_size : ℤ) - 1)
  { sample_mean := sample_mean
    sample_std := sample_std
    standard_error := standard_error
    t_stat := t_stat
    p_two_sided := p_two_sided
    p_greater := p_greater
    p_less := p_less
    ci_lower := sample_mean - q * standard_error
    ci_upper := sample_mean + q * standard_error
    significant_two_sided := p_two_sided < significance_level
    significant_greater := p_greater < significance_level
    significant_less := p_less < significance_level }

/-- Result of the goodness-of-fit engine on the shipped default scenario:
observed [74, 50, 20], expected-percentage sliders [25, 42.7, 33.5]. -/
noncomputable def gof_shipped_default : GofResult :=
  calculate_goodness_of_fit chisqSurvivalTwo [74, 50, 20] [25, 427/10, 67/2]

example : truncToInt (74 : ℚ) = 74 := by norm_num [truncToInt]
example : truncToInt (427/10 : ℚ) = 42 := by norm_num [truncToInt]
example :
    chisquare_stat [74, 50, 20] [48, 48, 48] = 61/2 := by
  norm_num [chisquare_stat]
example :
    (calculate_goodness_of_fit chisqSurvivalTwo [0, 0, 0] [25, 427/10, 67/2]).chi2_stat
      = 0 := by norm_num [calculate_goodness_of_fit, truncToInt, chisquare_stat]
example :
    (calculate_goodness_of_fit chisqSurvivalTwo [74, 50, 20] [0, 0, 0]).chi2_stat
      = 61/2 := by
  norm_num [calculate_goodness_of_fit, truncToInt, chisquare_stat,
    show List.replicate 3 ((1:ℚ)/3) = [1/3, 1/3, 1/3] from rfl]
example :
    59 < (calculate_goodness_of_fit chisqSurvivalTwo [74, 50, 20]
      [25, 427/10, 67/2]).chi2_stat := by
  norm_num [calculate_goodness_of_fit, truncToInt, chisquare_stat]
example :
    (calculate_goodness_of_fit chisqSurvivalTwo [74, 50, 20]
      [25, 427/10, 67/2]).chi2_stat < 60 := by
  norm_num [calculate_goodness_of_fit, truncToInt, chisquare_stat]

/-! Helper lemmas -/

/-- A slider list in which nothing is being dragged is unchanged by a
MOUSEMOTION step. -/
theorem map_slider_motion_of_no_drag (mx : ℚ) :
    ∀ (l : List Slider), (∀ s ∈ l, s.dragging = false) →
      l.map (slider_motion mx) = l := by
  intro l h
  induction l with
  | nil => rfl
  | cons a t ih =>
    have ha : a.dragging = false := h a (by simp)
    have ht := ih (fun s hs => h s (by simp [hs]))
    simp [slider_motion, ha, ht]

/-- Sum of elementwise differences of equal-length lists. -/
theorem sum_zipWith_sub (a b : List ℚ) (h : a.length = b.length) :
    (List.zipWith (fun x y => x - y) a b).sum = a.sum - b.sum := by
  induction a generalizing b with
  | nil =>
    cases b with
    | nil => simp
    | cons y ys => simp at h
  | cons x xs ih =>
    cases b with
    | nil => simp at h
    | cons y ys =>
      have h' : xs.length = ys.length := by simpa using h
      simp [ih ys h']
      ring

/-! Claim C10 -/

/-- C10: for every observed-count vector whose (integer-converted) entries
sum to zero, `calculate_goodness_of_fit` short-circuits to statistic 0,
p-value 1.0 and df = k - 1 without invoking the library chisquare call
(`Chi_2_Goodness_Fit.py` lines 171-178). -/
theorem gof_zero_total_short_circuit (sf : ℤ → ℚ → ℝ)
    (obs exps : List ℚ) (h : ((obs.map truncToInt).sum : ℤ) = 0) :
    calculate_goodness_of_fit sf obs exps =
      { chi2_stat := 0
        p_value := 1
        df := (obs.length : ℤ) - 1
        has_calculated := true
        called_library := false
        divisors := [] } := by
  simp [calculate_goodness_of_fit, h]

/-- C10 witness: the short-circuit at observed sliders [0, 0, 0]. -/
theorem gof_zero_total_short_circuit_witness :
    calculate_goodness_of_fit chisqSurvivalTwo [0, 0, 0] [25, 427/10, 67/2] =
      { chi2_stat := 0
        p_value := 1
        df := 2
        has_calculated := true
        called_library := false
        divisors := [] } := by
  have h := gof_zero_total_short_circuit chisqSurvivalTwo [0, 0, 0]
    [25, 427/10, 67/2] (by norm_num [truncToInt])
  simpa using h

/-! Claim C3 -/

/-- C3: for every contingency table with a zero row sum or zero column sum,
`calculate_independence` returns statistic 0, p-value 1.0 and
df = (r-1)(c-1) and does not invoke the library contingency call
(`Chi_2_Goodness_Fit.py` lines 213-222); the result is the same for every
library implementation `lib`. -/
theorem independence_zero_margin_short_circuit
    (lib : List (List ℕ) → ℚ × ℝ × ℤ) (cells : List (List ℕ))
    (hrect : ∀ row ∈ cells, row.length = numCols cells)
    (hzero : (∃ row ∈ cells, row.sum = 0) ∨
      (∃ col ∈ cells.transpose, col.sum = 0)) :
    calculate_independence lib cells =
      { chi2_stat := 0
        p_value := 1
        df := ((cells.length : ℤ) - 1) * ((numCols cells : ℤ) - 1)
        has_calculated := true
        called_library := false } := by
  have hcond : ((cells.map List.sum).any (fun s => s == 0) ||
      (cells.transpose.map List.sum).any (fun s => s == 0)) = true := by
    rw [Bool.or_eq_true]
    rcases hzero with ⟨row, hmem, hsum⟩ | ⟨col, hmem, hsum⟩
    · left
      rw [List.any_eq_true]
      exact ⟨row.sum, List.mem_map_of_mem List.sum hmem, by simp [hsum]⟩
    · right
      rw [List.any_eq_true]
      exact ⟨col.sum, List.mem_map_of_mem List.sum hmem, by simp [hsum]⟩
  simp [calculate_independence, hcond]

/-- C3 witness: the table [[0,0],[1,2]] has a zero first-row sum, and the
short-circuit fires even for a library stub returning nonsense. -/
theorem independence_zero_margin_short_circuit_witness :
    calculate_independence (fun _ => (5, 1/2, 7)) [[0, 0], [1, 2]] =
      { chi2_stat := 0
        p_value := 1
        df := 1
        has_calculated := true
        called_library := false } := by
  have h := independence_zero_margin_short_circuit (fun _ => (5, 1/2, 7))
    [[0, 0], [1, 2]] (by decide)
    (Or.inl ⟨[0, 0], by simp, by simp⟩)
  simpa [numCols] using h

/-! Claim C1 -/

/-- C1 counterexample: observed sliders [74, 50, 20] have positive total
144, the expected-proportion sliders are all zero, yet the returned
p-value is exp(-61/4) < 1, not exactly 1.0 — the code falls back to
uniform expected counts (48 each) and still calls the library, whose
chi-square survival value at the statistic 61/2 with df = 2 is below 1. -/
theorem gof_zero_props_pvalue_ne_one :
    0 < ((([74, 50, 20] : List ℚ).map truncToInt).sum : ℤ) ∧
    (calculate_goodness_of_fit chisqSurvivalTwo [74, 50, 20] [0, 0, 0]).p_value < 1 := by
  constructor
  · norm_num [truncToInt]
  · have hstat :
        (calculate_goodness_of_fit chisqSurvivalTwo [74, 50, 20] [0, 0, 0]).p_value
          = Real.exp (-(((61 : ℝ)/2) / 2)) := by
      norm_num [calculate_goodness_of_fit, truncToInt, chisquare_stat,
        chisqSurvivalTwo,
        show List.replicate 3 ((1:ℚ)/3) = [1/3, 1/3, 1/3] from rfl]
    rw [hstat]
    have : (-(((61 : ℝ)/2) / 2)) < 0 := by norm_num
    calc Real.exp (-(((61 : ℝ)/2) / 2)) < Real.exp 0 := Real.exp_lt_exp.mpr this
    _ = 1 := Real.exp_zero

/-- C1 (amended): for every observed-count vector with positive
integer-converted total and every same-length all-zero expected-proportion
vector, `calculate_goodness_of_fit` falls back to the uniform expected
proportions 1/k, reaches the library call, divides only by strictly
positive quantities (so no division by zero occurs), computes the
chi-square statistic against uniform expected counts total/k, and returns
as p-value the library survival value at that statistic — which is 1.0
only when the statistic is zero, not in general. -/
theorem gof_zero_props_uniform_fallback (sf : ℤ → ℚ → ℝ)
    (obs exps : List ℚ)
    (hlen : exps.length = obs.length)
    (hpos : 0 < ((obs.map truncToInt).sum : ℤ))
    (hzero : ∀ x ∈ exps, x = 0) :
    (calculate_goodness_of_fit sf obs exps).called_library = true ∧
    (∀ d ∈ (calculate_goodness_of_fit sf obs exps).divisors, 0 < d) ∧
    (calculate_goodness_of_fit sf obs exps).chi2_stat =
      chisquare_stat ((obs.map truncToInt).map (fun n => (n : ℚ)))
        (List.replicate obs.length
          (((((obs.map truncToInt).sum : ℤ) : ℚ)) / (obs.length : ℚ))) ∧
    (calculate_goodness_of_fit sf obs exps).p_value =
      sf ((obs.length : ℤ) - 1)
        (calculate_goodness_of_fit sf obs exps).chi2_stat := by
  have htot : ((obs.map truncToInt).sum : ℤ) ≠ 0 := ne_of_gt hpos
  have hk : 0 < obs.length := by
    rcases Nat.eq_zero_or_pos obs.length with h0 | h
    · exfalso
      have hnil : obs = [] := List.length_eq_zero.mp h0
      rw [hnil] at hpos
      simp at hpos
    · exact h
  have hsum0 : ((exps.map (fun v => v / 100)).sum : ℚ) = 0 := by
    apply List.sum_eq_zero
    intro x hx
    rcases List.mem_map.mp hx with ⟨v, hv, rfl⟩
    rw [hzero v hv]
    norm_num
  have hkQ : (0 : ℚ) < (obs.length : ℚ) := by exact_mod_cast hk
  have htQ : (0 : ℚ) < (((obs.map truncToInt).sum : ℤ) : ℚ) := by
    exact_mod_cast hpos
  simp only [calculate_goodness_of_fit, hsum0, lt_irrefl, if_false,
    if_neg htot, List.length_map, hlen, List.map_replicate,
    one_div_mul_eq_div, and_true, true_and, eq_self_iff_true]
  intro d hd
  simp only [List.mem_append, List.mem_replicate, List.mem_singleton] at hd
  rcases hd with (⟨-, rfl⟩ | rfl) | ⟨-, rfl⟩
  · norm_num
  · exact hkQ
  · exact div_pos htQ hkQ

/-- C1 witness: at observed [74, 50, 20] and all-zero proportions, the
library branch is reached and the p-value is the survival value at the
computed statistic with df = 2. -/
theorem gof_zero_props_uniform_fallback_witness :
    (calculate_goodness_of_fit chisqSurvivalTwo [74, 50, 20] [0, 0, 0]).called_library
        = true ∧
    (calculate_goodness_of_fit chisqSurvivalTwo [74, 50, 20] [0, 0, 0]).p_value =
      chisqSurvivalTwo 2
        (calculate_goodness_of_fit chisqSurvivalTwo [74, 50, 20] [0, 0, 0]).chi2_stat := by
  obtain ⟨h1, -, -, h4⟩ := gof_zero_props_uniform_fallback chisqSurvivalTwo
    [74, 50, 20] [0, 0, 0] (by decide) (by norm_num [truncToInt])
    (by intro x hx; simpa using hx)
  refine ⟨h1, ?_⟩
  simpa using h4

/-! Claim C2 -/


/-- C2 counterexample: the freshly computed statistic of the shipped
default scenario differs from the hardcoded reference value 57.8 by more
than 1, so it is not approximately 57.8 and does not match the shipped
display constant 57.82 (the exact value is about 59.47). -/
theorem gof_default_scenario_not_57_8 :
    1 < |gof_shipped_default.chi2_stat - 289/5| := by
  have h59 : (59 : ℚ) < gof_shipped_default.chi2_stat := by
    norm_num [gof_shipped_default, calculate_goodness_of_fit, truncToInt,
      chisquare_stat]
  have h : (1 : ℚ) < gof_shipped_default.chi2_stat - 289/5 := by linarith
  calc (1 : ℚ) < gof_shipped_default.chi2_stat - 289/5 := h
  _ ≤ |gof_shipped_default.chi2_stat - 289/5| := le_abs_self _

/-- C2 (amended): the shipped default scenario yields a chi-square
statistic strictly between 59 and 60 (about 59.47, not the hardcoded
57.82), df = 2, and a p-value below 1/20000 (so it displays as 0.0000 to
four decimal places), with the computed flag set. -/
theorem gof_default_scenario_values :
    (59 < gof_shipped_default.chi2_stat ∧ gof_shipped_default.chi2_stat < 60) ∧
    gof_shipped_default.df = 2 ∧
    gof_shipped_default.p_value < 1/20000 ∧
    gof_shipped_default.has_calculated = true := by
  have hbounds : 59 < gof_shipped_default.chi2_stat ∧
      gof_shipped_default.chi2_stat < 60 := by
    constructor
    · norm_num [gof_shipped_default, calculate_goodness_of_fit, truncToInt,
        chisquare_stat]
    · norm_num [gof_shipped_default, calculate_goodness_of_fit, truncToInt,
        chisquare_stat]
  have hp : gof_shipped_default.p_value =
      Real.exp (-((gof_shipped_default.chi2_stat : ℝ) / 2)) := by
    norm_num [gof_shipped_default, calculate_goodness_of_fit, chisqSurvivalTwo,
      truncToInt]
  have hplt : gof_shipped_default.p_value < 1/20000 := by
    rw [hp]
    have hS : (59 : ℝ) < (gof_shipped_default.chi2_stat : ℝ) := by
      exact_mod_cast hbounds.1
    have h1 : Real.exp (-((gof_shipped_default.chi2_stat : ℝ) / 2)) <
        Real.exp (-10) := by
      apply Real.exp_lt_exp.mpr
      linarith
    have h2 : Real.exp (-10) < 1/20000 := by
      rw [Real.exp_neg]
      rw [inv_lt_comm₀ (Real.exp_pos 10) (by norm_num)]
      have he : (2.7182818283 : ℝ) ^ (10 : ℕ) < Real.exp 1 ^ (10 : ℕ) := by
        apply pow_lt_pow_left₀ Real.exp_one_gt_d9 (by norm_num)
        norm_num
      have hpow : Real.exp 1 ^ (10 : ℕ) = Real.exp 10 := by
        rw [← Real.exp_nat_mul]
        norm_num
      rw [hpow] at he
      calc (1/20000 : ℝ)⁻¹ = 20000 := by norm_num
      _ < (2.7182818283 : ℝ) ^ (10 : ℕ) := by norm_num
      _ < Real.exp 10 := he
    linarith
  refine ⟨hbounds, ?_, hplt, ?_⟩
  · norm_num [gof_shipped_default, calculate_goodness_of_fit, truncToInt]
  · norm_num [gof_shipped_default, calculate_goodness_of_fit, truncToInt]

/-! Claim C4 -/

/-- C4 counterexample: in `t_test.py`, a MOUSEMOTION step on a dragging
slider (position 0, width 200, range [70, 130], value 100) with the mouse
at x = 200 changes the slider value to 130 but leaves `has_calculated`
true — the input changed while the result flag stayed set. -/
theorem ttest_mousemotion_keeps_flag :
    (ttest_mousemotion [⟨0, 0, 200, 100, 70, 130, true⟩] true 200).1
        ≠ [⟨0, 0, 200, 100, 70, 130, true⟩] ∧
    (ttest_mousemotion [⟨0, 0, 200, 100, 70, 130, true⟩] true 200).2 = true := by
  constructor
  · intro h
    rw [show (ttest_mousemotion [⟨0, 0, 200, 100, 70, 130, true⟩] true 200).1
        = [⟨0, 0, 200, 130, 70, 130, true⟩] by
      norm_num [ttest_mousemotion, slider_motion, slider_set_value,
        slider_new_val]] at h
    norm_num [Slider.mk.injEq] at h
  · rfl

/-- C4 (amended): in `Chi_2_Goodness_Fit.py`, every MOUSEMOTION step that
changes any slider value clears `has_calculated` in the same step; but in
`t_test.py` the MOUSEMOTION step never touches `has_calculated`, even when
it changes slider values, so the claim fails for that program. -/
theorem mousemotion_flag_clearing (sliders : List Slider)
    (has_calculated : Bool) (mx : ℚ)
    (hchange : (gof_mousemotion sliders has_calculated mx).1 ≠ sliders) :
    (gof_mousemotion sliders has_calculated mx).2 = false ∧
    (ttest_mousemotion sliders has_calculated mx).2 = has_calculated := by
  refine ⟨?_, rfl⟩
  by_cases hdrag : sliders.any (fun s => s.dragging) = true
  · simp [gof_mousemotion, hdrag]
  · exfalso
    apply hchange
    have hnone : ∀ s ∈ sliders, s.dragging = false := by
      intro s hs
      by_contra hd
      have : sliders.any (fun s => s.dragging) = true :=
        List.any_eq_true.mpr ⟨s, hs, by simpa using hd⟩
      exact hdrag this
    simp [gof_mousemotion, map_slider_motion_of_no_drag mx sliders hnone]

/-- C4 witness: the goodness-of-fit MOUSEMOTION step at the same dragging
slider clears the flag (and the t_test step, by contrast, does not). -/
theorem mousemotion_flag_clearing_witness :
    (gof_mousemotion [⟨0, 0, 200, 100, 70, 130, true⟩] true 200).2 = false ∧
    (ttest_mousemotion [⟨0, 0, 200, 100, 70, 130, true⟩] true 200).2 = true := by
  have h := mousemotion_flag_clearing [⟨0, 0, 200, 100, 70, 130, true⟩] true 200
    (by
      intro h
      rw [show (gof_mousemotion [⟨0, 0, 200, 100, 70, 130, true⟩] true 200).1
          = [⟨0, 0, 200, 130, 70, 130, true⟩] by
        norm_num [gof_mousemotion, slider_motion, slider_set_value,
          slider_new_val]] at h
      norm_num [Slider.mk.injEq] at h)
  exact h

/-! Claim C5 -/

/-- C5 counterexample: in `one_sample_ttest.py`, a resize event processed
while the test-value slider is being dragged leaves its drag flag true:
the VIDEORESIZE handler only recomputes the layout, and `calculate_layout`
rebuilds the slider with `"dragging": test_value_slider["dragging"]`. -/
theorem ost_videoresize_keeps_drag :
    ((ost_videoresize 500 500 (434/10) ⟨0, 0, 300, 10, 0, true⟩).2).dragging
      = true := by
  rfl

/-- C5 (amended): in `t_test.py` (and likewise `Chi_2_Goodness_Fit.py` and
`chi_square.py`) the VIDEORESIZE handler forcibly clears every slider's
drag flag, so after processing the resize no slider is dragging; in
`one_sample_ttest.py`, however, the drag flag survives the resize. -/
theorem ttest_videoresize_clears_drag (newgeom : ℕ → ℚ × ℚ × ℚ)
    (sliders : List Slider) :
    (ttest_videoresize newgeom sliders).map Slider.dragging =
      List.replicate sliders.length false := by
  unfold ttest_videoresize
  rw [List.map_map]
  apply List.eq_replicate_iff.mpr
  refine ⟨by simp, ?_⟩
  intro b hb
  rcases List.mem_map.mp hb with ⟨si, hsi, rfl⟩
  rfl

/-! Claim C8 -/

/-- C8: a slider with a positive-width track and min ≤ max keeps
`min ≤ value ≤ max` across a MOUSEMOTION step (whether or not it is
dragging, provided it satisfied the invariant before); and a simulated
drag to a mouse x-coordinate at or left of the track start yields exactly
the minimum, while one at or right of the track end yields exactly the
maximum. -/
theorem slider_clamp_invariant (s : Slider) (mx : ℚ)
    (hrange : s.lo ≤ s.hi) (hw : 0 < s.width)
    (hinv : s.lo ≤ s.value ∧ s.value ≤ s.hi) :
    (s.lo ≤ (slider_motion mx s).value ∧ (slider_motion mx s).value ≤ s.hi) ∧
    (mx ≤ s.posx → slider_set_value s mx = s.lo) ∧
    (s.posx + s.width ≤ mx → slider_set_value s mx = s.hi) := by
  have hclamp : s.lo ≤ slider_set_value s mx ∧ slider_set_value s mx ≤ s.hi := by
    constructor
    · exact le_max_left _ _
    · exact max_le hrange (min_le_left _ _)
  refine ⟨?_, ?_, ?_⟩
  · unfold slider_motion
    by_cases hd : s.dragging
    · simpa [hd] using hclamp
    · simpa [hd] using hinv
  · intro hleft
    have hnv : slider_new_val s mx ≤ s.lo := by
      unfold slider_new_val
      have h1 : (mx - s.posx) / s.width ≤ 0 :=
        div_nonpos_of_nonpos_of_nonneg (by linarith) (le_of_lt hw)
      have h2 : (mx - s.posx) / s.width * (s.hi - s.lo) ≤ 0 :=
        mul_nonpos_of_nonpos_of_nonneg h1 (by linarith)
      linarith
    unfold slider_set_value
    rw [min_eq_right (le_trans hnv hrange), max_eq_left hnv]
  · intro hright
    have hnv : s.hi ≤ slider_new_val s mx := by
      unfold slider_new_val
      have h1 : (1 : ℚ) ≤ (mx - s.posx) / s.width :=
        (one_le_div hw).mpr (by linarith)
      have h2 : 1 * (s.hi - s.lo) ≤ (mx - s.posx) / s.width * (s.hi - s.lo) :=
        mul_le_mul_of_nonneg_right h1 (by linarith)
      linarith
    unfold slider_set_value
    rw [min_eq_left hnv, max_eq_right hrange]

/-- C8 witness: the default control-group mean slider of `t_test.py`
(range [70, 130], width 200, value 100) dragged to x = -50 (left of the
track) snaps to 70, dragged to x = 500 (right of the track) snaps to 130,
and the motion step keeps the value inside the range. -/
theorem slider_clamp_invariant_witness :
    (70 ≤ (slider_motion 500 ⟨0, 0, 200, 100, 70, 130, true⟩).value ∧
      (slider_motion 500 ⟨0, 0, 200, 100, 70, 130, true⟩).value ≤ 130) ∧
    slider_set_value ⟨0, 0, 200, 100, 70, 130, true⟩ (-50) = 70 ∧
    slider_set_value ⟨0, 0, 200, 100, 70, 130, true⟩ 500 = 130 := by
  have h1 := slider_clamp_invariant ⟨0, 0, 200, 100, 70, 130, true⟩ 500
    (by norm_num) (by norm_num) (by norm_num)
  have h2 := slider_clamp_invariant ⟨0, 0, 200, 100, 70, 130, true⟩ (-50)
    (by norm_num) (by norm_num) (by norm_num)
  exact ⟨h1.1, h2.2.1 (by norm_num), h1.2.2 (by norm_num)⟩

/-! Claim C9 -/

/-- C9: contingency-cell keyboard editing.  A digit key appends the digit
in base 10 whenever the value has fewer than three digits (typing 5 then 3
on a cell showing 0 yields 53); any sequence of well-formed edits keeps
the value below 1000; and Backspace drops the last decimal digit (integer
division by 10), leaving 0 when a single-digit value is erased. -/
theorem cell_edit_semantics :
    (cell_digit (cell_digit 0 5) 3 = 53) ∧
    (∀ v d : ℕ, v < 100 → cell_digit v d = v * 10 + d) ∧
    (∀ (v : ℕ) (es : List CellEdit), v < 1000 → (∀ e ∈ es, e.wf) →
      applyCellEdits v es < 1000) ∧
    (∀ v : ℕ, cell_backspace v = v / 10) ∧
    (∀ v : ℕ, v < 10 → cell_backspace v = 0) := by
  refine ⟨by decide, ?_, ?_, ?_, ?_⟩
  · intro v d hv
    unfold cell_digit
    by_cases h0 : v = 0
    · simp [h0]
    · rw [if_neg h0, if_pos hv]
  · intro v es
    induction es generalizing v with
    | nil => intro hv _; simpa [applyCellEdits] using hv
    | cons e t ih =>
      intro hv hwf
      have hstep : applyCellEdit v e < 1000 := by
        cases e with
        | digit d =>
          have hd : d ≤ 9 := hwf (.digit d) (by simp)
          simp only [applyCellEdit, cell_digit]
          split
          · omega
          · split
            · omega
            · exact hv
        | backspace =>
          simp only [applyCellEdit, cell_backspace]
          split
          · omega
          · omega
      exact ih (applyCellEdit v e) hstep (fun e' he' => hwf e' (by simp [he']))
  · intro v
    unfold cell_backspace
    by_cases h10 : 10 ≤ v
    · rw [if_pos h10]
    · rw [if_neg h10]
      omega
  · intro v hv
    unfold cell_backspace
    rw [if_neg (by omega)]

/-- C9 witness: typing 5 then 3 then 7 gives 537, a further digit on a
three-digit value is ignored (stays below 1000), and Backspace peels
digits down to 0. -/
theorem cell_edit_semantics_witness :
    cell_digit 53 7 = 537 ∧
    applyCellEdits 0 [.digit 5, .digit 3, .digit 7, .digit 9] < 1000 ∧
    cell_backspace 53 = 5 ∧
    cell_backspace 7 = 0 := by
  obtain ⟨-, h2, h3, h4, h5⟩ := cell_edit_semantics
  exact ⟨h2 53 7 (by decide), h3 0 [.digit 5, .digit 3, .digit 7, .digit 9]
    (by decide) (by simp [CellEdit.wf]), h4 53, h5 7 (by decide)⟩


/-! Claim C6 -/

/-- C6: for equal-length before/after arrays, `perform_paired_ttest`
returns a differences array equal elementwise to before - after, and its
mean difference equals mean(before) - mean(after) — exactly, in the
rational model, hence within floating tolerance in the Python floats. -/
theorem paired_differences_and_mean
    (ttest_rel : List ℚ → List ℚ → ℝ × ℝ) (tppf : ℝ → ℤ → ℝ) (alpha : ℝ)
    (before after : List ℚ) (hlen : before.length = after.length) :
    (perform_paired_ttest ttest_rel tppf alpha before after).differences
        = List.zipWith (fun b a => b - a) before after ∧
    (perform_paired_ttest ttest_rel tppf alpha before after).mean_diff
        = npMean before - npMean after := by
  have hd_len : (List.zipWith (fun b a => b - a) before after).length
      = before.length := by
    rw [List.length_zipWith, hlen, min_self, ← hlen]
  refine ⟨rfl, ?_⟩
  show npMean (List.zipWith (fun b a => b - a) before after)
      = npMean before - npMean after
  unfold npMean
  rw [sum_zipWith_sub before after hlen, hd_len, sub_div,
    show ((after.length : ℚ)) = (before.length : ℚ) by rw [hlen]]

/-- C6 witness: before [5, 3] and after [1, 2] give differences [4, 1] and
mean difference 5/2 = 4 - 3/2. -/
theorem paired_differences_and_mean_witness :
    (perform_paired_ttest (fun _ _ => (0, 1)) (fun _ _ => 0) (1/20)
        [5, 3] [1, 2]).differences = [4, 1] ∧
    (perform_paired_ttest (fun _ _ => (0, 1)) (fun _ _ => 0) (1/20)
        [5, 3] [1, 2]).mean_diff = 5/2 := by
  obtain ⟨h1, h2⟩ := paired_differences_and_mean (fun _ _ => (0, 1))
    (fun _ _ => 0) (1/20) [5, 3] [1, 2] (by decide)
  constructor
  · rw [h1]
    norm_num
  · rw [h2]
    norm_num [npMean]

/-! Claim C7 -/

/-- C7: the 95 percent confidence interval of `perform_ttest` brackets the
sample mean, and with sample size held fixed its width is monotone
non-decreasing in the sample standard deviation; the hypothesis `hq`
states the mathematical fact that the 97.5 percent t-quantile the library
returns is non-negative. -/
theorem perform_ttest_ci_bracket_mono
    (t1s : List ℚ → ℚ → ℝ × ℝ) (tppf : ℝ → ℤ → ℝ) (alpha : ℝ) (mu : ℚ)
    (d1 d2 : List ℚ)
    (hn : 2 ≤ d1.length) (hlen : d2.length = d1.length)
    (hq : 0 ≤ tppf (975/1000) ((d1.length : ℤ) - 1)) :
    ((perform_ttest t1s tppf alpha d1 mu).ci_lower ≤
        (perform_ttest t1s tppf alpha d1 mu).sample_mean ∧
      (perform_ttest t1s tppf alpha d1 mu).sample_mean ≤
        (perform_ttest t1s tppf alpha d1 mu).ci_upper) ∧
    (npSampleStd d1 ≤ npSampleStd d2 →
      (perform_ttest t1s tppf alpha d1 mu).ci_upper -
          (perform_ttest t1s tppf alpha d1 mu).ci_lower ≤
        (perform_ttest t1s tppf alpha d2 mu).ci_upper -
          (perform_ttest t1s tppf alpha d2 mu).ci_lower) := by
  have hnR : (0 : ℝ) < (d1.length : ℝ) := by
    have : 0 < d1.length := lt_of_lt_of_le (by norm_num) hn
    exact_mod_cast this
  have hsq : (0 : ℝ) < Real.sqrt (d1.length : ℝ) := Real.sqrt_pos.mpr hnR
  have hse1 : 0 ≤ npSampleStd d1 / Real.sqrt (d1.length : ℝ) :=
    div_nonneg (Real.sqrt_nonneg _) (le_of_lt hsq)
  simp only [perform_ttest, hlen]
  refine ⟨⟨?_, ?_⟩, ?_⟩
  · exact sub_le_self _ (mul_nonneg hq hse1)
  · exact le_add_of_nonneg_right (mul_nonneg hq hse1)
  · intro hmono
    have hse : npSampleStd d1 / Real.sqrt (d1.length : ℝ) ≤
        npSampleStd d2 / Real.sqrt (d1.length : ℝ) :=
      (div_le_div_iff_of_pos_right hsq).mpr hmono
    have hmul := mul_le_mul_of_nonneg_left hse hq
    linarith

/-- C7 witness: data [0, 1] with a stub library whose 97.5 percent
t-quantile is 2 has a CI that brackets the sample mean. -/
theorem perform_ttest_ci_bracket_mono_witness :
    (perform_ttest (fun _ _ => (0, 1)) (fun _ _ => 2) (1/20) [0, 1] 0).ci_lower ≤
      (perform_ttest (fun _ _ => (0, 1)) (fun _ _ => 2) (1/20) [0, 1] 0).sample_mean ∧
    (perform_ttest (fun _ _ => (0, 1)) (fun _ _ => 2) (1/20) [0, 1] 0).sample_mean ≤
      (perform_ttest (fun _ _ => (0, 1)) (fun _ _ => 2) (1/20) [0, 1] 0).ci_upper :=
  (perform_ttest_ci_bracket_mono (fun _ _ => (0, 1)) (fun _ _ => 2) (1/20) 0
    [0, 1] [0, 2] (by decide) (by decide) (by norm_num)).1
